import Mathlib

/-!
Verification of the UI logic of the atltvhead.github.io portfolio site.

The repository is a static web page: the only computational content is a
handful of pure arithmetic routines (color interpolation, easing, clamping)
and small event-driven state machines (menu toggles, scroll handlers,
lazy-image observation).  We embed each of those pieces faithfully from the
JavaScript source, modelling IEEE doubles by exact rationals and DOM /
library state by explicit records, and prove the stated properties.
-/

/-! ## Colors (THREE.Color, componentwise, channels as rationals in [0,1]) -/

/-- An RGB color with rational channels, as `THREE.Color` stores floats. -/
structure Color where
  r : ℚ
  g : ℚ
  b : ℚ
deriving DecidableEq, Repr

/-- `THREE.Color.setHex`: split a 24-bit hex value into channels / 255. -/
def Color.ofHex (hex : ℕ) : Color :=
  { r := (((hex / 65536) % 256 : ℕ) : ℚ) / 255
    g := (((hex / 256) % 256 : ℕ) : ℚ) / 255
    b := ((hex % 256 : ℕ) : ℚ) / 255 }

/-- `THREE.Color.lerp`: componentwise `this.c += (target.c - this.c) * alpha`. -/
def Color.lerp (c target : Color) (alpha : ℚ) : Color :=
  { r := c.r + (target.r - c.r) * alpha
    g := c.g + (target.g - c.g) * alpha
    b := c.b + (target.b - c.b) * alpha }

/-- `new THREE.Color(0xffffff)` — white/clear crystal. -/
def crystalColor : Color := Color.ofHex 0xffffff

/-- `new THREE.Color(0xff1744)` — deep red ruby. -/
def rubyColor : Color := Color.ofHex 0xff1744

/-- `new THREE.Color(0x2979ff)` — deep blue sapphire. -/
def sapphireColor : Color := Color.ofHex 0x2979ff

/-- `ModelViewer.getGemColor` from the gem viewer: below one half interpolate
crystal to ruby with parameter `progress * 2`, above it ruby to sapphire with
parameter `(progress - 0.5) * 2`. -/
def getGemColor (progress : ℚ) : Color :=
  if progress ≤ 1/2 then
    crystalColor.lerp rubyColor (progress * 2)
  else
    rubyColor.lerp sapphireColor ((progress - 1/2) * 2)

/-! ## Scroll-progress state (gem viewer wheel handler) -/

/-- The fields of a DOM wheel event the handler reads: whether Shift is held
and whether `deltaY > 0`. -/
structure WheelEvt where
  shiftKey : Bool
  deltaYPos : Bool
deriving DecidableEq, Repr

/-- One firing of the canvas-container `wheel` listener of the gem viewer:
with Shift held it adds `±0.02` and clamps via `Math.max(0, Math.min(1, ·))`;
without Shift it leaves the progress untouched. -/
def hueWheelStep (p : ℚ) (e : WheelEvt) : ℚ :=
  if e.shiftKey then
    max 0 (min 1 (p + (if e.deltaYPos then 1/50 else -(1/50))))
  else
    p

/-- `scrollProgress` after a sequence of wheel events, starting from the
constructor's initial value `0`. -/
def scrollProgressAfter (events : List WheelEvt) : ℚ :=
  events.foldl hueWheelStep 0

/-! ## Easing and tweening (AnimationController.animateModelTo) -/

/-- The ease-in-out easing of `animateModelTo`:
`progress < 0.5 ? 2*progress*progress : 1 - (-2*progress+2)^2/2`. -/
def easeInOut (p : ℚ) : ℚ :=
  if p < 1/2 then 2 * p * p else 1 - (-2 * p + 2)^2 / 2

/-- One animated scalar: `start + (target - start) * eased`. -/
def animValue (start target eased : ℚ) : ℚ :=
  start + (target - start) * eased

/-- A three-component vector as used for position and rotation. -/
structure Vec3 where
  x : ℚ
  y : ℚ
  z : ℚ
deriving DecidableEq, Repr

/-- A model's animated state: position, rotation (Euler components) and the
uniform scale (`model.scale.x`; `scale.set` keeps the three axes equal). -/
structure ModelState where
  position : Vec3
  rotation : Vec3
  scale : ℚ
deriving DecidableEq, Repr

/-- The `target` option object handed to `animateModelTo`: each property is
animated only if present, and `duration` defaults to 1000 at the call sites
considered here. -/
structure TweenTarget where
  position : Option Vec3
  rotation : Option Vec3
  scale : Option ℚ
  duration : ℕ
deriving DecidableEq, Repr

/-- Interpolate a vector componentwise, as the three assignments in the
`animate` closure do. -/
def lerpVec (s t : Vec3) (eased : ℚ) : Vec3 :=
  { x := animValue s.x t.x eased
    y := animValue s.y t.y eased
    z := animValue s.z t.z eased }

/-- One frame of the `animate` closure at a given progress value: compute the
eased parameter and update every property present in the target. -/
def applyTweenFrame (start : ModelState) (target : TweenTarget) (progress : ℚ) :
    ModelState :=
  let eased := easeInOut progress
  { position := match target.position with
      | some p => lerpVec start.position p eased
      | none => start.position
    rotation := match target.rotation with
      | some r => lerpVec start.rotation r eased
      | none => start.rotation
    scale := match target.scale with
      | some sc => animValue start.scale sc eased
      | none => start.scale }

/-! ## Model loading and the fallback path (src/js/viewer.js) -/

/-- The two kinds of top-level object `loadModel` can put into the scene:
the OBJ model on success, or the procedural placeholder group on failure. -/
inductive SceneObj where
  | loadedModel : SceneObj
  | defaultGroup : SceneObj
deriving DecidableEq, Repr

/-- The viewer state the load callbacks touch: the `model` field, the list of
objects added to the scene, the loading-screen text, the progress-bar width,
the pending delay (ms) after which the `hidden` class is added, and whether
the success-path material traversal ran. -/
structure ViewerState where
  model : Option SceneObj
  sceneObjs : List SceneObj
  loadingText : String
  progressWidthPct : ℚ
  hideDelayMs : Option ℕ
  materialApplied : Bool
deriving DecidableEq, Repr

/-- `ModelViewer.loadDefaultGeometry`: build the placeholder group, assign it
to `this.model` and add it to the scene. -/
def loadDefaultGeometry (s : ViewerState) : ViewerState :=
  { s with model := some SceneObj.defaultGroup
           sceneObjs := s.sceneObjs ++ [SceneObj.defaultGroup] }

/-- The error callback of `loader.load` in `ModelViewer.loadModel`: set the
loading text, call `loadDefaultGeometry`, and schedule the `hidden` class
after 1000 ms. -/
def loadModelOnError (s : ViewerState) : ViewerState :=
  let s1 := { s with loadingText := "Loading default geometry..." }
  let s2 := loadDefaultGeometry s1
  { s2 with hideDelayMs := some 1000 }

/-- The success callback of `loader.load`: store the object, traverse it
applying the gem material, add it to the scene, report completion and
schedule the `hidden` class after 500 ms. -/
def loadModelOnSuccess (s : ViewerState) : ViewerState :=
  { s with model := some SceneObj.loadedModel
           sceneObjs := s.sceneObjs ++ [SceneObj.loadedModel]
           materialApplied := true
           loadingText := "Model Loaded!"
           progressWidthPct := 100
           hideDelayMs := some 500 }

/-! ## Navigation scroll handler (main.js initNavigation) -/

/-- A page section as the scroll listener sees it: its `id` attribute and its
`offsetTop` in pixels. -/
structure Sec where
  id : String
  offsetTop : ℚ
deriving DecidableEq, Repr

/-- The test `window.pageYOffset >= sectionTop - 200` of the scroll
listener. -/
def sectionQualifies (y : ℚ) (s : Sec) : Bool :=
  decide (s.offsetTop - 200 ≤ y)

/-- The `current` variable after the `sections.forEach` loop: starts as the
empty string and is overwritten by the id of every qualifying section in
document order, so it ends as the last qualifying id. -/
def computeCurrentSection (sections : List Sec) (y : ℚ) : String :=
  sections.foldl (fun cur s => if sectionQualifies y s then s.id else cur) ""

/-- A nav link: its `href` attribute and whether it carries the `active`
class. -/
structure NavLink where
  href : String
  active : Bool
deriving DecidableEq, Repr

/-- The `navLinks.forEach` loop: remove `active` from every link and add it
back exactly when the link's href equals `"#" + current`. -/
def updateNavLinks (links : List NavLink) (cur : String) : List NavLink :=
  links.map fun l => { l with active := l.href == "#" ++ cur }

/-- The whole scroll listener body as far as nav links are concerned. -/
def navScrollHandler (sections : List Sec) (y : ℚ) (links : List NavLink) :
    List NavLink :=
  updateNavLinks links (computeCurrentSection sections y)

/-- Modelled from the spec: the nav-link anchors of the page's HTML, which is
not under src/.  The spec and the repository README name four sections —
home, about, projects, contact — and the nav links point at them, none at a
bare fragment. -/
def specNavLinks : List NavLink :=
  [{ href := "#home", active := false },
   { href := "#about", active := false },
   { href := "#projects", active := false },
   { href := "#contact", active := false }]

/-! ## Contact form handler (main.js initContactForm) -/

/-- The observable effects the submit handler can perform; `networkRequest`
is included so that its absence is expressible. -/
inductive FormEffect where
  | preventDefault : FormEffect
  | consoleLog (name email message : String) : FormEffect
  | alertMsg (text : String) : FormEffect
  | resetForm : FormEffect
  | networkRequest (url : String) : FormEffect
deriving DecidableEq, Repr

/-- Whether an effect is a network request. -/
def FormEffect.isNetwork : FormEffect → Bool
  | FormEffect.networkRequest _ => true
  | _ => false

/-- The submit handler of the contact form: prevent the default submission,
read the three fields, log them, alert, reset.  The `fetch` call in the
source is commented out. -/
def contactSubmitHandler (name email message : String) : List FormEffect :=
  [FormEffect.preventDefault,
   FormEffect.consoleLog name email message,
   FormEffect.alertMsg "Thank you for your message! I will get back to you soon.",
   FormEffect.resetForm]

/-! ## Section-change dispatch (animations.js AnimationController) -/

/-- The pose `animateHome` tweens the main model to. -/
def homeTarget : TweenTarget :=
  { position := some ⟨0, 0, 0⟩, rotation := some ⟨0, 0, 0⟩
    scale := some (3/2), duration := 1000 }

/-- The pose `animateAbout` tweens the main model to. -/
def aboutTarget : TweenTarget :=
  { position := some ⟨2, 0, -2⟩, rotation := some ⟨1/2, 1/2, 0⟩
    scale := some 1, duration := 1000 }

/-- The pose `animateProjects` tweens the main model to. -/
def projectsTarget : TweenTarget :=
  { position := some ⟨-2, 1, -1⟩, rotation := some ⟨0, 1, 0⟩
    scale := some 1, duration := 1000 }

/-- The pose `animateContact` tweens the main model to. -/
def contactTarget : TweenTarget :=
  { position := some ⟨0, -1, -3⟩, rotation := some ⟨0, 0, 1/2⟩
    scale := some (4/5), duration := 1000 }

/-- `AnimationController.onSectionChange`: the `switch` dispatches on the
section id to one of the four handlers, each of which (when the mainTorus
model exists) starts `animateModelTo` toward its fixed pose; any other id
falls through every case and starts no tween. -/
def onSectionChangeTween (sectionId : String) : Option TweenTarget :=
  if sectionId = "home" then some homeTarget
  else if sectionId = "about" then some aboutTarget
  else if sectionId = "projects" then some projectsTarget
  else if sectionId = "contact" then some contactTarget
  else none

/-! ## Burger menu (main.js initNavigation) -/

/-- The two CSS classes the menu code toggles: `active` on the nav-links
element and `toggle` on the burger. -/
structure MenuState where
  navActive : Bool
  burgerToggle : Bool
deriving DecidableEq, Repr

/-- The burger click listener: `classList.toggle` on both classes. -/
def burgerClick (s : MenuState) : MenuState :=
  { navActive := !s.navActive, burgerToggle := !s.burgerToggle }

/-- A nav-link click listener: `classList.remove` on both classes. -/
def navLinkClick (s : MenuState) : MenuState :=
  { s with navActive := false, burgerToggle := false }

/-! ## Film thickness (iridescence viewer) -/

/-- One firing of the canvas-container wheel listener of the iridescence
viewer: with Shift held it adds `±20` nm and clamps via
`Math.max(200, Math.min(1000, ·))`; without Shift it does nothing. -/
def thicknessWheelStep (t : ℚ) (e : WheelEvt) : ℚ :=
  if e.shiftKey then
    max 200 (min 1000 (t + (if e.deltaYPos then 20 else -20)))
  else
    t

/-- `filmThickness` after a sequence of wheel events, from the constructor's
initial value of 380 nm. -/
def filmThicknessAfter (events : List WheelEvt) : ℚ :=
  events.foldl thicknessWheelStep 380

/-- A material stored in `iridescenceMaterials`: its `userData.fresnelMap`
is either absent or carries a `filmThickness` value. -/
structure IridMaterial where
  fresnelThickness : Option ℚ
deriving DecidableEq, Repr

/-- `ModelViewer.updateFilmThickness`: for every stored material whose
fresnel map exists, set that map's `filmThickness` to the new value. -/
def updateFilmThickness (mats : List IridMaterial) (t : ℚ) :
    List IridMaterial :=
  mats.map fun m =>
    match m.fresnelThickness with
    | some _ => { fresnelThickness := some t }
    | none => m

/-! ## Progressive image loader (progressive-loader.js) -/

/-- The loader's observer state: which images (numbered) are still observed,
and the log of `loadImage` calls made so far. -/
structure LoaderState where
  observed : List ℕ
  loads : List ℕ
deriving DecidableEq, Repr

/-- One intersection-observer entry `(target, isIntersecting)` processed by
the callback: every intersecting entry is passed to `loadImage` and then
unobserved, with no check that the target is still observed.  Unobserving
stops future record generation but does not purge entries already queued, so
one batch may hold several intersection entries for the same target. -/
def observerStep (s : LoaderState) (ev : ℕ × Bool) : LoaderState :=
  if ev.2 then
    { observed := s.observed.erase ev.1, loads := ev.1 :: s.loads }
  else
    s

/-- Run the observer over a sequence of entries, starting from the images
found by `setupImages` (all observed) and an empty call log. -/
def runObserver (images : List ℕ) (events : List (ℕ × Bool)) : LoaderState :=
  events.foldl observerStep { observed := images, loads := [] }

/-- The delivery assumption the at-most-once property needs: every
intersecting entry arrives while its target is still observed, so at most
one intersection entry is delivered per image.  The browser meets it when
threshold crossings arrive in separate batches; a single batch holding two
intersection entries for one target violates it. -/
def validDelivery (s : LoaderState) : List (ℕ × Bool) → Bool
  | [] => true
  | ev :: rest =>
      (!ev.2 || decide (ev.1 ∈ s.observed)) &&
        validDelivery (observerStep s ev) rest

/-- An `img` element's state: its `src`, its `data-src` attribute, and the
`loaded` class. -/
structure ImgState where
  src : String
  dataSrc : Option String
  loadedClass : Bool
deriving DecidableEq, Repr

/-- The `tempImg.onload` handler inside `loadImage`: set `src` to the full
source, add the `loaded` class, remove the `data-src` attribute. -/
def imageOnLoad (img : ImgState) (fullSrc : String) : ImgState :=
  { img with src := fullSrc, dataSrc := none, loadedClass := true }

/-! ## Theorems -/

/-- C1: `getGemColor` is the stated two-piece linear interpolation over
crystal white, ruby red and sapphire blue: for `p ≤ 1/2` it is the
crystal→ruby lerp at `2p`, for `p > 1/2` the ruby→sapphire lerp at
`2(p - 1/2)`; endpoints hit the three fixed colors exactly, and the two
pieces agree at `p = 1/2`, so the function is continuous there. -/
theorem getGemColor_piecewise_lerp (p : ℚ) (h0 : 0 ≤ p) (h1 : p ≤ 1) :
    (p ≤ 1/2 → getGemColor p = crystalColor.lerp rubyColor (2 * p)) ∧
    (1/2 < p → getGemColor p = rubyColor.lerp sapphireColor (2 * (p - 1/2))) ∧
    getGemColor 0 = crystalColor ∧
    getGemColor (1/2) = rubyColor ∧
    getGemColor 1 = sapphireColor ∧
    crystalColor.lerp rubyColor (2 * (1/2)) =
      rubyColor.lerp sapphireColor (2 * ((1/2 : ℚ) - 1/2)) := by
  refine ⟨?_, ?_, ?_, ?_, ?_, ?_⟩
  · intro hp
    simp only [getGemColor, if_pos hp, Color.lerp, Color.mk.injEq]
    exact ⟨by ring, by ring, by ring⟩
  · intro hp
    simp only [getGemColor, if_neg (not_le.mpr hp), Color.lerp, Color.mk.injEq]
    exact ⟨by ring, by ring, by ring⟩
  · simp only [getGemColor]
    norm_num [Color.lerp, crystalColor, rubyColor, Color.ofHex]
  · simp only [getGemColor]
    norm_num [Color.lerp, crystalColor, rubyColor, Color.ofHex]
  · simp only [getGemColor]
    norm_num [Color.lerp, rubyColor, sapphireColor, Color.ofHex]
  · norm_num [Color.lerp, crystalColor, rubyColor, sapphireColor, Color.ofHex]

/-- C1 witness: the theorem instantiated at `p = 1/4`, its first branch
discharged there. -/
theorem getGemColor_piecewise_lerp_witness :
    getGemColor (1/4) = crystalColor.lerp rubyColor (2 * (1/4)) ∧
    getGemColor 0 = crystalColor ∧
    getGemColor (1/2) = rubyColor ∧
    getGemColor 1 = sapphireColor ∧
    crystalColor.lerp rubyColor (2 * (1/2)) =
      rubyColor.lerp sapphireColor (2 * ((1/2 : ℚ) - 1/2)) := by
  have h := getGemColor_piecewise_lerp (1/4) (by norm_num) (by norm_num)
  exact ⟨h.1 (by norm_num), h.2.2.1, h.2.2.2.1, h.2.2.2.2.1, h.2.2.2.2.2⟩

/-- Auxiliary: one wheel step keeps the progress inside `[0, 1]`. -/
theorem hueWheelStep_mem (p : ℚ) (e : WheelEvt) (h0 : 0 ≤ p) (h1 : p ≤ 1) :
    0 ≤ hueWheelStep p e ∧ hueWheelStep p e ≤ 1 := by
  unfold hueWheelStep
  by_cases hs : e.shiftKey
  · simp only [hs, if_true]
    exact ⟨le_max_left _ _, max_le (by norm_num) (min_le_left _ _)⟩
  · simp only [hs, if_false]
    exact ⟨h0, h1⟩

/-- C2: starting from the initial value `0`, after any sequence of wheel
events handled by the canvas-container listener the `scrollProgress` value
remains in the interval `[0, 1]`. -/
theorem scrollProgress_clamped (events : List WheelEvt) :
    0 ≤ scrollProgressAfter events ∧ scrollProgressAfter events ≤ 1 := by
  have key : ∀ (l : List WheelEvt) (p : ℚ), 0 ≤ p → p ≤ 1 →
      0 ≤ l.foldl hueWheelStep p ∧ l.foldl hueWheelStep p ≤ 1 := by
    intro l
    induction l with
    | nil => intro p h0 h1; exact ⟨h0, h1⟩
    | cons e t ih =>
        intro p h0 h1
        have h := hueWheelStep_mem p e h0 h1
        simpa using ih (hueWheelStep p e) h.1 h.2
  simpa [scrollProgressAfter] using key events 0 (by norm_num) (by norm_num)

/-- C3: the ease-in-out easing fixes `0` and `1`, its two branch formulas
agree at `p = 1/2` (continuity there), it is monotone nondecreasing on
`[0, 1]`, and since `easeInOut 1 = 1` every property interpolated with it at
progress `1` lands exactly on the target snapshot. -/
theorem easeInOut_spec (p q : ℚ) (h0 : 0 ≤ p) (hpq : p ≤ q) (hq : q ≤ 1) :
    easeInOut 0 = 0 ∧
    easeInOut 1 = 1 ∧
    2 * (1/2 : ℚ) * (1/2) = 1 - (-2 * (1/2 : ℚ) + 2)^2 / 2 ∧
    easeInOut p ≤ easeInOut q ∧
    ∀ (start : ModelState) (pos rot : Vec3) (sc : ℚ) (d : ℕ),
      applyTweenFrame start ⟨some pos, some rot, some sc, d⟩ 1 =
        ⟨pos, rot, sc⟩ := by
  refine ⟨by norm_num [easeInOut], by norm_num [easeInOut], by norm_num, ?_, ?_⟩
  · unfold easeInOut
    have hp1 : p ≤ 1 := le_trans hpq hq
    have hq0 : 0 ≤ q := le_trans h0 hpq
    by_cases hp : p < 1/2 <;> by_cases hqh : q < 1/2
    · simp only [if_pos hp, if_pos hqh]
      nlinarith
    · simp only [if_pos hp, if_neg hqh]
      nlinarith [not_lt.mp hqh]
    · exact absurd (lt_of_le_of_lt hpq hqh) hp
    · simp only [if_neg hp, if_neg hqh]
      nlinarith [not_lt.mp hp, not_lt.mp hqh]
  · intro start pos rot sc d
    have he : easeInOut 1 = 1 := by norm_num [easeInOut]
    simp [applyTweenFrame, he, lerpVec, animValue]

/-- C3 witness: the theorem instantiated at `p = 1/4`, `q = 3/4`, with the
tween-completion clause read off at a concrete start state and target. -/
theorem easeInOut_spec_witness :
    easeInOut 0 = 0 ∧
    easeInOut 1 = 1 ∧
    2 * (1/2 : ℚ) * (1/2) = 1 - (-2 * (1/2 : ℚ) + 2)^2 / 2 ∧
    easeInOut (1/4) ≤ easeInOut (3/4) ∧
    applyTweenFrame ⟨⟨1, 2, 3⟩, ⟨0, 0, 0⟩, 1⟩
      ⟨some ⟨4, 5, 6⟩, some ⟨1, 1, 1⟩, some 2, 1000⟩ 1 =
      ⟨⟨4, 5, 6⟩, ⟨1, 1, 1⟩, 2⟩ := by
  have h := easeInOut_spec (1/4) (3/4) (by norm_num) (by norm_num) (by norm_num)
  exact ⟨h.1, h.2.1, h.2.2.1, h.2.2.2.1, h.2.2.2.2 _ _ _ _ _⟩

/-- C4: on the load-error path the viewer substitutes the procedural
placeholder — `model` becomes the default group, the group is added to the
scene — and the `hidden` class is scheduled 1000 ms later; the success-path
material application and the "Model Loaded!" message do not run: the
material flag and the progress bar are untouched and the loading text is
the fallback message. -/
theorem loadModel_error_path (s : ViewerState) :
    (loadModelOnError s).model = some SceneObj.defaultGroup ∧
    SceneObj.defaultGroup ∈ (loadModelOnError s).sceneObjs ∧
    (loadModelOnError s).hideDelayMs = some 1000 ∧
    (loadModelOnError s).loadingText = "Loading default geometry..." ∧
    ((loadModelOnError s).loadingText == "Model Loaded!") = false ∧
    (loadModelOnError s).materialApplied = s.materialApplied ∧
    (loadModelOnError s).progressWidthPct = s.progressWidthPct := by
  unfold loadModelOnError loadDefaultGeometry
  refine ⟨rfl, ?_, rfl, rfl, rfl, rfl, rfl⟩
  simp

/-- Auxiliary: the `current` accumulator loop computes the id of the last
qualifying section, or keeps the initial accumulator when none qualifies. -/
theorem foldl_current_eq_getLast (y : ℚ) (sections : List Sec) (a : String) :
    sections.foldl (fun cur s => if sectionQualifies y s then s.id else cur) a =
      match (sections.filter (sectionQualifies y)).getLast? with
      | some s => s.id
      | none => a := by
  induction sections using List.reverseRecOn generalizing a with
  | nil => rfl
  | append_singleton l s ih =>
      rw [List.foldl_append, List.filter_append]
      simp only [List.foldl_cons, List.foldl_nil, List.filter_cons,
        List.filter_nil]
      by_cases hq : sectionQualifies y s
      · simp [hq, ih, List.getLast?_concat]
      · simp [hq, ih]

/-- C5: after the scroll listener runs, the `active` class sits on exactly
the nav links whose href is `"#" +` the id of the last section in document
order with `pageYOffset >= offsetTop - 200`; and when no section qualifies,
none of the page's nav links is active. -/
theorem navScroll_active_class (sections : List Sec) (y : ℚ)
    (links : List NavLink) :
    (∀ s, (sections.filter (sectionQualifies y)).getLast? = some s →
      ∀ l ∈ navScrollHandler sections y links,
        (l.active = true ↔ l.href = "#" ++ s.id)) ∧
    ((sections.filter (sectionQualifies y)) = [] →
      ∀ l ∈ navScrollHandler sections y specNavLinks, l.active = false) := by
  constructor
  · intro s hs l hl
    have hcur : computeCurrentSection sections y = s.id := by
      unfold computeCurrentSection
      rw [foldl_current_eq_getLast, hs]
    rw [navScrollHandler, hcur] at hl
    simp only [updateNavLinks, List.mem_map] at hl
    obtain ⟨a, _, rfl⟩ := hl
    simp [beq_iff_eq]
  · intro hnil l hl
    have hcur : computeCurrentSection sections y = "" := by
      unfold computeCurrentSection
      rw [foldl_current_eq_getLast, hnil]
      rfl
    rw [navScrollHandler, hcur] at hl
    have hupd : updateNavLinks specNavLinks "" =
        [{ href := "#home", active := false },
         { href := "#about", active := false },
         { href := "#projects", active := false },
         { href := "#contact", active := false }] := by decide
    rw [hupd] at hl
    fin_cases hl <;> rfl

/-- C5 witness: with one section "about" at offset 300 and the page scrolled
to 500, the link "#about" is active and a link "#home" is not; with no
sections, every spec nav link ends inactive — both read off the theorem at
those inputs. -/
theorem navScroll_active_class_witness :
    (((NavLink.mk "#about" true).active = true ↔
        (NavLink.mk "#about" true).href = "#" ++ "about") ∧
      ((NavLink.mk "#home" false).active = true ↔
        (NavLink.mk "#home" false).href = "#" ++ "about")) ∧
    (NavLink.mk "#home" false).active = false := by
  have h := navScroll_active_class [Sec.mk "about" 300] 500
    [NavLink.mk "#about" false, NavLink.mk "#home" false]
  have hfil : List.filter (sectionQualifies 500) [Sec.mk "about" 300] =
      [Sec.mk "about" 300] := by
    norm_num [List.filter, sectionQualifies]
  have hlast : (List.filter (sectionQualifies 500)
      [Sec.mk "about" 300]).getLast? = some (Sec.mk "about" 300) := by
    rw [hfil]; rfl
  have hcur : computeCurrentSection [Sec.mk "about" 300] 500 = "about" := by
    unfold computeCurrentSection
    rw [foldl_current_eq_getLast, hlast]
  have hh : navScrollHandler [Sec.mk "about" 300] 500
      [NavLink.mk "#about" false, NavLink.mk "#home" false] =
      updateNavLinks [NavLink.mk "#about" false, NavLink.mk "#home" false]
        "about" := by
    rw [navScrollHandler, hcur]
  refine ⟨⟨?_, ?_⟩, ?_⟩
  · exact h.1 (Sec.mk "about" 300) hlast (NavLink.mk "#about" true)
      (by rw [hh]; decide)
  · exact h.1 (Sec.mk "about" 300) hlast (NavLink.mk "#home" false)
      (by rw [hh]; decide)
  · refine (navScroll_active_class [] 500 []).2 rfl
      (NavLink.mk "#home" false) ?_
    show NavLink.mk "#home" false ∈ navScrollHandler [] 500 specNavLinks
    have hcur0 : computeCurrentSection [] 500 = "" := rfl
    rw [navScrollHandler, hcur0]
    decide

/-- C6: the contact-form submit handler acts only locally — its effect list
is exactly prevent-default, a console log of the three field values, an
alert, and a form reset — and it contains no network request. -/
theorem contactForm_local_only (name email message : String) :
    contactSubmitHandler name email message =
      [FormEffect.preventDefault,
       FormEffect.consoleLog name email message,
       FormEffect.alertMsg "Thank you for your message! I will get back to you soon.",
       FormEffect.resetForm] ∧
    (contactSubmitHandler name email message).filter FormEffect.isNetwork = [] :=
  ⟨rfl, rfl⟩

/-- C7: `onSectionChange` dispatches each of the four known section ids to
its handler, every handler tweens the mainTorus model to its fixed
hard-coded pose with duration 1000 ms, and any other section id starts no
tween. -/
theorem onSectionChange_dispatch (sectionId : String)
    (h1 : sectionId ≠ "home") (h2 : sectionId ≠ "about")
    (h3 : sectionId ≠ "projects") (h4 : sectionId ≠ "contact") :
    onSectionChangeTween "home" = some homeTarget ∧
    onSectionChangeTween "about" = some aboutTarget ∧
    onSectionChangeTween "projects" = some projectsTarget ∧
    onSectionChangeTween "contact" = some contactTarget ∧
    homeTarget.duration = 1000 ∧ aboutTarget.duration = 1000 ∧
    projectsTarget.duration = 1000 ∧ contactTarget.duration = 1000 ∧
    onSectionChangeTween sectionId = none := by
  refine ⟨rfl, rfl, rfl, rfl, rfl, rfl, rfl, rfl, ?_⟩
  simp [onSectionChangeTween, h1, h2, h3, h4]

/-- C7 witness: the theorem at the section id "hero". -/
theorem onSectionChange_dispatch_witness :
    onSectionChangeTween "home" = some homeTarget ∧
    onSectionChangeTween "about" = some aboutTarget ∧
    onSectionChangeTween "projects" = some projectsTarget ∧
    onSectionChangeTween "contact" = some contactTarget ∧
    homeTarget.duration = 1000 ∧ aboutTarget.duration = 1000 ∧
    projectsTarget.duration = 1000 ∧ contactTarget.duration = 1000 ∧
    onSectionChangeTween "hero" = none :=
  onSectionChange_dispatch "hero" (by decide) (by decide) (by decide)
    (by decide)

/-- C8: the burger click is an involution on the pair of menu classes — two
consecutive clicks restore both `active` and `toggle` — and after a
nav-link click both classes are absent whatever the prior state. -/
theorem burger_involution_navlink_closes (s : MenuState) :
    burgerClick (burgerClick s) = s ∧
    (navLinkClick s).navActive = false ∧
    (navLinkClick s).burgerToggle = false := by
  cases s with
  | mk a b => simp [burgerClick, navLinkClick]

/-- Auxiliary: one thickness wheel step keeps the value inside
`[200, 1000]`. -/
theorem thicknessWheelStep_mem (t : ℚ) (e : WheelEvt)
    (h0 : 200 ≤ t) (h1 : t ≤ 1000) :
    200 ≤ thicknessWheelStep t e ∧ thicknessWheelStep t e ≤ 1000 := by
  unfold thicknessWheelStep
  by_cases hs : e.shiftKey
  · simp only [hs, if_true]
    exact ⟨le_max_left _ _, max_le (by norm_num) (min_le_left _ _)⟩
  · simp only [hs, if_false]
    exact ⟨h0, h1⟩

/-- C9: from the initial 380 nm the film thickness stays inside
`[200, 1000]` under any sequence of wheel events; a wheel event without
Shift leaves the thickness unchanged; and after `updateFilmThickness` runs
with value `t`, every stored material whose fresnel map exists carries film
thickness exactly `t`. -/
theorem filmThickness_invariant (events : List WheelEvt) (e : WheelEvt)
    (t : ℚ) (mats : List IridMaterial) (m : IridMaterial) (x : ℚ)
    (hshift : e.shiftKey = false) (hm : m ∈ updateFilmThickness mats t)
    (hx : m.fresnelThickness = some x) :
    (200 ≤ filmThicknessAfter events ∧ filmThicknessAfter events ≤ 1000) ∧
    thicknessWheelStep t e = t ∧
    x = t := by
  refine ⟨?_, ?_, ?_⟩
  · have key : ∀ (l : List WheelEvt) (p : ℚ), 200 ≤ p → p ≤ 1000 →
        200 ≤ l.foldl thicknessWheelStep p ∧
          l.foldl thicknessWheelStep p ≤ 1000 := by
      intro l
      induction l with
      | nil => intro p h0 h1; exact ⟨h0, h1⟩
      | cons ev tl ih =>
          intro p h0 h1
          have h := thicknessWheelStep_mem p ev h0 h1
          simpa using ih (thicknessWheelStep p ev) h.1 h.2
    simpa [filmThicknessAfter] using key events 380 (by norm_num) (by norm_num)
  · unfold thicknessWheelStep
    simp [hshift]
  · simp only [updateFilmThickness, List.mem_map] at hm
    obtain ⟨a, _, rfl⟩ := hm
    cases ha : a.fresnelThickness with
    | some v =>
        simp [ha] at hx
        exact hx.symm
    | none => simp [ha] at hx

/-- C9 witness: the theorem at one Shift-wheel-up event, a Shift-less event
at 500 nm, and a one-material list updated to 500 nm. -/
theorem filmThickness_invariant_witness :
    (200 ≤ filmThicknessAfter [WheelEvt.mk true true] ∧
      filmThicknessAfter [WheelEvt.mk true true] ≤ 1000) ∧
    thicknessWheelStep 500 (WheelEvt.mk false true) = 500 ∧
    (500 : ℚ) = 500 :=
  filmThickness_invariant [WheelEvt.mk true true] (WheelEvt.mk false true)
    500 [IridMaterial.mk (some 380)] (IridMaterial.mk (some 500)) 500
    rfl (by simp [updateFilmThickness]) rfl

/-- Auxiliary: one observer entry whose intersecting target is still
observed preserves the bound `observed.count + loads.count ≤ 1`. -/
theorem observerStep_count_le (s : LoaderState) (ev : ℕ × Bool) (img : ℕ)
    (hv : ev.2 = true → ev.1 ∈ s.observed)
    (h : s.observed.count img + s.loads.count img ≤ 1) :
    (observerStep s ev).observed.count img +
      (observerStep s ev).loads.count img ≤ 1 := by
  unfold observerStep
  by_cases hc : ev.2 = true
  · simp only [hc, if_true]
    have hmem : ev.1 ∈ s.observed := hv hc
    by_cases he : ev.1 = img
    · subst he
      have hone : 0 < s.observed.count ev.1 :=
        List.count_pos_iff.mpr hmem
      rw [List.count_erase_self, List.count_cons_self]
      omega
    · rw [List.count_erase_of_ne (Ne.symm he),
        List.count_cons_of_ne (Ne.symm he)]
      exact h
  · simp only [hc, if_false]
    exact h

/-- Auxiliary: the bound is preserved along any validly delivered entry
sequence. -/
theorem observer_run_count_le (events : List (ℕ × Bool)) (s : LoaderState)
    (img : ℕ) (hv : validDelivery s events = true)
    (h : s.observed.count img + s.loads.count img ≤ 1) :
    (events.foldl observerStep s).observed.count img +
      (events.foldl observerStep s).loads.count img ≤ 1 := by
  induction events generalizing s with
  | nil => exact h
  | cons ev tl ih =>
      rw [List.foldl_cons]
      simp only [validDelivery, Bool.and_eq_true] at hv
      refine ih _ hv.2 (observerStep_count_le s ev img ?_ h)
      intro h2
      rcases (Bool.or_eq_true _ _).mp hv.1 with hb | hb
      · rw [h2] at hb
        simp at hb
      · exact of_decide_eq_true hb

/-- C10 counterexample: the callback calls `loadImage` on every intersecting
entry with no observed-status check, and unobserving does not purge entries
already queued, so one batch holding two intersection entries for image 0
passes it to `loadImage` twice — the claim as stated fails. -/
theorem lazyImage_loaded_twice_counterexample :
    (runObserver [0, 1] [(0, true), (0, true)]).loads.count 0 = 2 := by
  decide

/-- C10 (amended): under the delivery assumption — every intersecting entry
arrives while its target is still observed, i.e. at most one intersection
entry per image is delivered — a duplicate-free image set has each image
passed to `loadImage` at most once over any entry sequence; and on a
successful load the image loses its `data-src` attribute and gains the
`loaded` class. -/
theorem lazyImage_loaded_once_valid (images : List ℕ)
    (events : List (ℕ × Bool)) (img : ℕ) (i : ImgState) (fullSrc : String)
    (hnd : images.Nodup)
    (hv : validDelivery { observed := images, loads := [] } events = true) :
    (runObserver images events).loads.count img ≤ 1 ∧
    (imageOnLoad i fullSrc).dataSrc = none ∧
    (imageOnLoad i fullSrc).loadedClass = true := by
  refine ⟨?_, rfl, rfl⟩
  have h0 : images.count img + ([] : List ℕ).count img ≤ 1 := by
    have := List.nodup_iff_count_le_one.mp hnd img
    simpa using this
  have hrun := observer_run_count_le events
    { observed := images, loads := [] } img hv h0
  unfold runObserver
  omega

/-- C10 witness: a validly delivered sequence over two images — image 0
intersects once, image 1 first reports non-intersecting and then
intersects — loads image 0 exactly once. -/
theorem lazyImage_loaded_once_valid_witness :
    (runObserver [0, 1] [(0, true), (1, false), (1, true)]).loads.count 0 ≤ 1 ∧
    (imageOnLoad (ImgState.mk "thumb.jpg" (some "full.jpg") false)
      "full.jpg").dataSrc = none ∧
    (imageOnLoad (ImgState.mk "thumb.jpg" (some "full.jpg") false)
      "full.jpg").loadedClass = true :=
  lazyImage_loaded_once_valid [0, 1] [(0, true), (1, false), (1, true)] 0
    (ImgState.mk "thumb.jpg" (some "full.jpg") false) "full.jpg"
    (by decide) (by decide)
